import Mathlib

/-!
# Verification of the cfk terminal console core

Shallow embedding of the cfk (Console for Kafka) TUI core:

* `TextInput` models the bubbles text-input component (value plus focus flag);
* `ClusterForm` / `TopicForm` embed the modal forms of `internal/tui`
  (the evolved variants: the cluster form with four inputs, the topic form
  with two inputs, edit-lock on the topic name, and the focus-cycling code);
* `Client` / `App` embed `internal/kafka/client.go` and `internal/core/app.go`,
  with the network and the configuration file behind explicit oracles
  (`Adapter`), since those collaborators are external to the core;
* `Model.update` embeds the view-state reducer of `internal/tui/tui.go`.

Machine integers are modelled as `Int` (Go `int`); fallible operations
return `Except String` or pair the result with an `Option String` error,
mirroring Go's `(T, error)` conventions.
-/

/-- Model of `config.KafkaClusterConfig`. -/
structure KafkaClusterConfig where
  name : String
  bootstrap : List String
  username : String
  password : String
  ssl : Bool
  sasl : Bool
  saslType : String
deriving DecidableEq, Repr

/-- Model of `config.UIConfig`. -/
structure UIConfig where
  theme : String
  refreshInterval : Int
  maxMessagesShown : Int
deriving DecidableEq, Repr

/-- Model of `config.AppConfig`. -/
structure AppConfig where
  clusters : List KafkaClusterConfig
  ui : UIConfig
deriving DecidableEq, Repr

/-- Model of `kafka.TopicInfo`.  `partitions` is `len(partitions)` of the
metadata read from the broker; `replicationFactor` stays at its zero value
(the Go code never fills it in). -/
structure TopicInfo where
  name : String
  partitions : Int
  replicationFactor : Int
deriving DecidableEq, Repr

/-- Model of `tui.Item` (`internal/tui/item.go`).  `data` carries the
`*kafka.TopicInfo` stored in the `Data interface{}` field (cluster items
leave it empty). -/
structure Item where
  title : String
  description : String
  data : Option TopicInfo
deriving DecidableEq, Repr

/-- `NewTopicItem` from `internal/tui/item.go`. -/
def NewTopicItem (topicName : String) (info : Option TopicInfo) : Item :=
  let description :=
    match info with
    | Option.none => "Unknown details"
    | some i => toString i.partitions ++ " partitions"
  { title := topicName, description := description, data := info }

/-- `NewClusterItem` from `internal/tui/item.go`. -/
def NewClusterItem (clusterName : String) (bootstrapServers : List String) : Item :=
  let description :=
    match bootstrapServers with
    | [] => "No bootstrap servers"
    | fst :: rest =>
      if rest.length > 0 then fst ++ " (+" ++ toString rest.length ++ " more)"
      else fst
  { title := clusterName, description := description, data := Option.none }

/-! ## Messages

Model of the `tea.Msg` values the reducer consumes.  A key press is carried
as the string `tea.KeyMsg.String()` returns, which is exactly what the Go
code switches on.  `nothing` stands for a `nil` message returned by a
command closure (bubbletea drops it before it reaches `Update`). -/

inductive Msg where
  | key (s : String)
  | itemsUpdated (items : List Item)
  | errorMsg (e : String)
  | clusterAdded (c : KafkaClusterConfig)
  | clusterUpdated (c : KafkaClusterConfig)
  | clusterFormCancelled
  | topicAdded (name : String) (partitions : Int) (replicationFactor : Int)
  | topicUpdated (oldName : String) (name : String) (partitions : Int)
  | topicFormCancelled
  | topicsLoaded (topics : List String)
  | connected (clusterName : String)
  | nothing
deriving DecidableEq, Repr

/-- Result of one reducer step: either no command, the quit command, or a
command that will deliver exactly one message back into the queue.
Focus/blink commands produced by text inputs never feed a message back to
the reducer and are modelled as `noCmd`. -/
inductive Cmd where
  | noCmd
  | quit
  | emit (msg : Msg)
deriving DecidableEq, Repr

def liftOpt (o : Option Msg) : Cmd :=
  match o with
  | Option.none => Cmd.noCmd
  | some m => Cmd.emit m

/-! ## Text inputs

Model of `bubbles/textinput.Model` as far as the claims need it: the value
string and the focus flag.  A blurred input ignores keys; a focused input
appends a printable (single-character) key at the cursor (which sits at the
end of the line after `SetValue`) and deletes the last character on
backspace; navigation keys only move the cursor and leave the value alone. -/

structure TextInput where
  value : String
  focused : Bool
deriving DecidableEq, Repr

def TextInput.update (t : TextInput) (s : String) : TextInput :=
  if t.focused then
    if s = "backspace" then { t with value := t.value.dropRight 1 }
    else if s.length = 1 then { t with value := t.value ++ s }
    else t
  else t

/-- A text input only reacts to key messages; blink and other messages
never change the value. -/
def TextInput.updateMsg (t : TextInput) (msg : Msg) : TextInput :=
  match msg with
  | Msg.key s => t.update s
  | _ => t

/-! ## Focus navigation

The focus-cycling arithmetic of the two forms, on the pair
`(focusIndex, buttonFocus)`.  `focusIndex = -1` is the button row.
These are literal translations of the `tab`/`shift+tab`/`up`/`down`
branches of `ClusterForm.Update` and `TopicForm.Update`; the cluster form
has `len(f.inputs) = 4`, the topic form `len(f.inputs) = 2`. -/

def clusterNavUp (p : Int × Int) : Int × Int :=
  if p.1 = -1 then (3, -1)
  else if p.1 > 0 then (p.1 - 1, p.2)
  else (-1, 1)

def clusterNavDown (p : Int × Int) : Int × Int :=
  if p.1 = -1 then
    if p.2 < 1 then (-1, p.2 + 1) else (0, -1)
  else if p.1 < 3 then (p.1 + 1, p.2)
  else (-1, 0)

def topicNavUp (p : Int × Int) : Int × Int :=
  if p.1 = -1 then (1, -1)
  else if p.1 > 0 then (p.1 - 1, p.2)
  else (-1, 1)

/-- The topic form's downward move: when wrapping from the `cancel` button
back into the fields it skips the locked name field in edit mode. -/
def topicNavDown (isEdit : Bool) (p : Int × Int) : Int × Int :=
  if p.1 = -1 then
    if p.2 < 1 then (-1, p.2 + 1)
    else ((if isEdit then 1 else 0), -1)
  else if p.1 < 1 then (p.1 + 1, p.2)
  else (-1, 0)

/-! ## Cluster form -/

/-- Model of `tui.ClusterForm`: four text inputs (name, bootstrap servers,
username, password), the focus state, the button labels and the captured
cluster value. -/
structure ClusterForm where
  input0 : TextInput
  input1 : TextInput
  input2 : TextInput
  input3 : TextInput
  focusIndex : Int
  submitButton : String
  cancelButton : String
  buttonFocus : Int
  width : Int
  height : Int
  cluster : KafkaClusterConfig
  isEdit : Bool
deriving DecidableEq, Repr

/-- `NewClusterForm`.  Input 0 receives `Focus()`; `buttonFocus` is left at
its Go zero value 0. -/
def NewClusterForm (width height : Int) (cluster? : Option KafkaClusterConfig) :
    ClusterForm :=
  let isEdit := cluster?.isSome
  let cluster := cluster?.getD
    { name := "", bootstrap := [""], username := "", password := "",
      ssl := false, sasl := false, saslType := "" }
  { input0 := { value := cluster.name, focused := true }
    input1 := { value := String.intercalate "," cluster.bootstrap, focused := false }
    input2 := { value := cluster.username, focused := false }
    input3 := { value := cluster.password, focused := false }
    focusIndex := 0
    submitButton := if isEdit then "Update" else "Add"
    cancelButton := "Cancel"
    buttonFocus := 0
    width := width
    height := height
    cluster := cluster
    isEdit := isEdit }

/-- The message produced by the cluster form's submit closure. -/
def ClusterForm.submitMsg (f : ClusterForm) : Msg :=
  let bootstrapServers := (f.input1.value.splitOn ",").map String.trim
  let cluster : KafkaClusterConfig :=
    { name := f.input0.value
      bootstrap := bootstrapServers
      username := f.input2.value
      password := f.input3.value
      ssl := f.cluster.ssl
      sasl := f.cluster.sasl
      saslType := f.cluster.saslType }
  if f.isEdit then Msg.clusterUpdated cluster else Msg.clusterAdded cluster

/-- The focus loop after navigation: input `i` is focused iff
`i == f.focusIndex`. -/
def ClusterForm.navigate (f : ClusterForm) (s : String) : ClusterForm :=
  let p :=
    if s = "up" ∨ s = "shift+tab" then clusterNavUp (f.focusIndex, f.buttonFocus)
    else clusterNavDown (f.focusIndex, f.buttonFocus)
  { f with
    focusIndex := p.1
    buttonFocus := p.2
    input0 := { f.input0 with focused := p.1 == 0 }
    input1 := { f.input1 with focused := p.1 == 1 }
    input2 := { f.input2 with focused := p.1 == 2 }
    input3 := { f.input3 with focused := p.1 == 3 } }

/-- Character input: `if f.focusIndex >= 0`, the message is routed to the
input at that index.  An index outside `0..3` cannot occur on a reachable
form (Go would panic on it). -/
def ClusterForm.charInput (f : ClusterForm) (msg : Msg) : ClusterForm × Option Msg :=
  if 0 ≤ f.focusIndex then
    if f.focusIndex = 0 then ({ f with input0 := f.input0.updateMsg msg }, Option.none)
    else if f.focusIndex = 1 then ({ f with input1 := f.input1.updateMsg msg }, Option.none)
    else if f.focusIndex = 2 then ({ f with input2 := f.input2.updateMsg msg }, Option.none)
    else if f.focusIndex = 3 then ({ f with input3 := f.input3.updateMsg msg }, Option.none)
    else (f, Option.none)
  else (f, Option.none)

def ClusterForm.applyKey (f : ClusterForm) (s : String) : ClusterForm × Option Msg :=
  if s = "tab" ∨ s = "shift+tab" ∨ s = "up" ∨ s = "down" then
    (f.navigate s, Option.none)
  else if s = "enter" ∧ f.focusIndex = -1 then
    if f.buttonFocus = 0 then (f, some f.submitMsg)
    else (f, some Msg.clusterFormCancelled)
  else f.charInput (Msg.key s)

/-- `ClusterForm.Update`: key messages go through the key switch; any other
message falls through to the focused input. -/
def ClusterForm.update (f : ClusterForm) (msg : Msg) : ClusterForm × Option Msg :=
  match msg with
  | Msg.key s => f.applyKey s
  | _ => f.charInput msg

/-! ## Topic form -/

/-- Model of `tui.TopicForm`: topic name and partitions inputs. -/
structure TopicForm where
  input0 : TextInput
  input1 : TextInput
  focusIndex : Int
  submitButton : String
  cancelButton : String
  buttonFocus : Int
  width : Int
  height : Int
  topicName : String
  isEdit : Bool
deriving DecidableEq, Repr

/-- `NewTopicForm`.  In edit mode (non-empty `topicName`) the name field is
blurred, the partitions field is focused and seeded with the current count,
and the initial focus index is 1; in add mode the name field is focused and
partitions defaults to `"1"`. -/
def NewTopicForm (width height : Int) (topicName : String) (partitions : Int) :
    TopicForm :=
  let isEdit := topicName != ""
  { input0 := { value := topicName, focused := !isEdit }
    input1 := { value := if isEdit then toString partitions else "1",
                focused := isEdit }
    focusIndex := if isEdit then 1 else 0
    submitButton := if isEdit then "Update" else "Add"
    cancelButton := "Cancel"
    buttonFocus := 0
    width := width
    height := height
    topicName := topicName
    isEdit := isEdit }

/-- Model of `fmt.Sscanf(value, "%d", &partitions)`: skip leading
whitespace, an optional sign, then at least one digit; trailing characters
are ignored.  `none` when no integer can be read. -/
def goScanInt (s : String) : Option Int :=
  let cs := s.data.dropWhile Char.isWhitespace
  let signed : Bool × List Char :=
    match cs with
    | '-' :: rest => (true, rest)
    | '+' :: rest => (false, rest)
    | _ => (false, cs)
  let ds := signed.2.takeWhile Char.isDigit
  if ds.isEmpty then Option.none
  else
    let n : Nat := ds.foldl (fun a c => a * 10 + (c.toNat - 48)) 0
    some (if signed.1 then -(n : Int) else (n : Int))

/-- The message produced by the topic form's submit closure: partitions
defaults to 1 on an empty field; a non-parsable or non-positive value
yields the invalid-input error; otherwise a `TopicUpdatedMsg` (edit mode,
decided by `topicName != ""`) or `TopicAddedMsg` with replication factor 1. -/
def TopicForm.submitMsg (f : TopicForm) : Msg :=
  let outcome : Int → Msg := fun partitions =>
    if f.topicName != "" then
      Msg.topicUpdated f.topicName f.input0.value partitions
    else
      Msg.topicAdded f.input0.value partitions 1
  if f.input1.value ≠ "" then
    match goScanInt f.input1.value with
    | Option.none => Msg.errorMsg "invalid number of partitions"
    | some partitions =>
      if partitions < 1 then Msg.errorMsg "invalid number of partitions"
      else outcome partitions
  else outcome 1

def TopicForm.navigate (f : TopicForm) (s : String) : TopicForm :=
  let p :=
    if s = "up" ∨ s = "shift+tab" then topicNavUp (f.focusIndex, f.buttonFocus)
    else topicNavDown f.isEdit (f.focusIndex, f.buttonFocus)
  { f with
    focusIndex := p.1
    buttonFocus := p.2
    input0 := { f.input0 with focused := p.1 == 0 }
    input1 := { f.input1 with focused := p.1 == 1 } }

/-- Character input: in edit mode input to the (read-only) name field is
silently dropped; otherwise the message reaches the focused input. -/
def TopicForm.charInput (f : TopicForm) (msg : Msg) : TopicForm × Option Msg :=
  if 0 ≤ f.focusIndex then
    if f.isEdit ∧ f.focusIndex = 0 then (f, Option.none)
    else if f.focusIndex = 0 then ({ f with input0 := f.input0.updateMsg msg }, Option.none)
    else if f.focusIndex = 1 then ({ f with input1 := f.input1.updateMsg msg }, Option.none)
    else (f, Option.none)
  else (f, Option.none)

def TopicForm.applyKey (f : TopicForm) (s : String) : TopicForm × Option Msg :=
  if s = "tab" ∨ s = "shift+tab" ∨ s = "up" ∨ s = "down" then
    (f.navigate s, Option.none)
  else if s = "enter" ∧ f.focusIndex = -1 then
    if f.buttonFocus = 0 then (f, some f.submitMsg)
    else (f, some Msg.topicFormCancelled)
  else f.charInput (Msg.key s)

/-- `TopicForm.Update`: the first statement re-derives `isEdit` from
`topicName` ("force isEdit based on topicName"); then key messages go
through the key switch and everything else to the focused input. -/
def TopicForm.update (f0 : TopicForm) (msg : Msg) : TopicForm × Option Msg :=
  let f := { f0 with isEdit := f0.topicName != "" }
  match msg with
  | Msg.key s => f.applyKey s
  | _ => f.charInput msg

/-! ## Kafka client (`internal/kafka/client.go`)

The broker connection is modelled by the list of partition records its
metadata exposes, each record carrying its topic name (`ReadPartitions`
returns one record per partition).  The network itself sits behind the
`Adapter` oracles below. -/

/-- Model of `kafka.Client`: the captured cluster config and the connection
(`none` before `Connect`), the connection carrying the topic name of each
partition record visible through `ReadPartitions`. -/
structure Client where
  config : KafkaClusterConfig
  conn : Option (List String)
deriving DecidableEq, Repr

/-- Oracles for the external collaborators: the broker dial (yielding the
metadata the new connection will expose), the controller-side topic
creation and deletion outcomes, and the configuration save
(`GetConfigDir` + `SaveAppConfig`, `none` meaning success). -/
structure Adapter where
  dial : KafkaClusterConfig → Except String (List String)
  createTopicOutcome : String → Int → Int → Option String
  deleteTopicOutcome : String → Option String
  saveConfig : AppConfig → Option String

/-- `Client.Connect`: fails with no bootstrap servers, otherwise dials the
first one; on success the connection is stored on the client. -/
def Client.connect (ad : Adapter) (c : Client) : Client × Option String :=
  if c.config.bootstrap.isEmpty then
    (c, some "no bootstrap servers configured")
  else
    match ad.dial c.config with
    | Except.error e => (c, some ("failed to connect to Kafka: " ++ e))
    | Except.ok meta => ({ c with conn := some meta }, Option.none)

/-- First-occurrence de-duplication of topic names.  The Go code collects
them through a map, whose iteration order is unspecified; no claim depends
on the order. -/
def dedupTopics (l : List String) : List String :=
  l.foldl (fun acc t => if acc.contains t then acc else acc ++ [t]) []

/-- `Client.ListTopics`: needs a connection; returns the distinct topic
names among the partition records. -/
def Client.listTopics (c : Client) : Except String (List String) :=
  match c.conn with
  | Option.none => Except.error "not connected to Kafka"
  | some meta => Except.ok (dedupTopics meta)

/-- `Client.GetTopicInfo`: needs a connection; counts the partition records
of the topic, failing when there are none.  Replication factor and config
are left unfilled, as in the source. -/
def Client.getTopicInfo (c : Client) (topicName : String) : Except String TopicInfo :=
  match c.conn with
  | Option.none => Except.error "not connected to Kafka"
  | some meta =>
    let ps := meta.filter (fun t => t == topicName)
    if ps.length = 0 then Except.error ("topic " ++ topicName ++ " not found")
    else Except.ok { name := topicName, partitions := (ps.length : Int),
                     replicationFactor := 0 }

/-- `Client.CreateTopic`: needs a connection; the controller dial and the
creation itself are the oracle's outcome. -/
def Client.createTopic (ad : Adapter) (c : Client) (topicName : String)
    (numPartitions replicationFactor : Int) : Except String Unit :=
  match c.conn with
  | Option.none => Except.error "not connected to Kafka"
  | some _ =>
    match ad.createTopicOutcome topicName numPartitions replicationFactor with
    | some e => Except.error ("failed to create topic " ++ topicName ++ ": " ++ e)
    | Option.none => Except.ok ()

/-- `Client.DeleteTopic`: needs a connection; the controller-side outcome is
the oracle's. -/
def Client.deleteTopic (ad : Adapter) (c : Client) (topicName : String) :
    Except String Unit :=
  match c.conn with
  | Option.none => Except.error "not connected to Kafka"
  | some _ =>
    match ad.deleteTopicOutcome topicName with
    | some e => Except.error ("failed to delete topic " ++ topicName ++ ": " ++ e)
    | Option.none => Except.ok ()

/-- `Client.UpdateTopicPartitions`: needs a connection, fetches the current
count, rejects a non-increase, and otherwise fails anyway because the
library provides no way to alter partitions (the AdminClient stub). -/
def Client.updateTopicPartitions (c : Client) (topicName : String)
    (numPartitions : Int) : Except String Unit :=
  match c.conn with
  | Option.none => Except.error "not connected to Kafka"
  | some _ =>
    match c.getTopicInfo topicName with
    | Except.error e => Except.error ("failed to get topic info: " ++ e)
    | Except.ok topicInfo =>
      if numPartitions ≤ topicInfo.partitions then
        Except.error ("new partition count must be greater than current count ("
          ++ toString topicInfo.partitions ++ ")")
      else
        Except.error ("updating partitions is supported but requires Kafka AdminClient API. "
          ++ "Please use kafka-topics.sh --alter --topic " ++ topicName
          ++ " --partitions " ++ toString numPartitions)

/-! ## Application core (`internal/core/app.go`)

`App` is passed around by pointer in Go; here each operation returns the
updated `App` next to its `error`, so a caller that goes on after a failed
save sees exactly the in-memory state the Go code leaves behind. -/

structure App where
  config : AppConfig
  kafkaClient : Option Client
deriving DecidableEq, Repr

/-- `App.ConnectToCluster`: look the profile up by name; absent names fail
before any client is created.  A found profile installs a fresh client on
the app *before* connecting, so a failed dial still leaves the client
assigned (with no connection), as in the source. -/
def App.connectToCluster (ad : Adapter) (a : App) (clusterName : String) :
    App × Option String :=
  match a.config.clusters.find? (fun c => c.name == clusterName) with
  | Option.none => (a, some ("cluster " ++ clusterName ++ " not found in configuration"))
  | some clusterConfig =>
    let client : Client := { config := clusterConfig, conn := Option.none }
    match Client.connect ad client with
    | (client', some e) =>
      ({ a with kafkaClient := some client' },
       some ("failed to connect to cluster " ++ clusterName ++ ": " ++ e))
    | (client', Option.none) => ({ a with kafkaClient := some client' }, Option.none)

def App.listTopics (a : App) : Except String (List String) :=
  match a.kafkaClient with
  | Option.none => Except.error "not connected to any Kafka cluster"
  | some c => c.listTopics

def App.getTopicInfo (a : App) (topicName : String) : Except String TopicInfo :=
  match a.kafkaClient with
  | Option.none => Except.error "not connected to any Kafka cluster"
  | some c => c.getTopicInfo topicName

/-- `App.AddCluster`: a duplicate name fails before any mutation; otherwise
the profile is appended *before* the save, so a failed save still leaves
the profile in the in-memory list, as in the source. -/
def App.addCluster (ad : Adapter) (a : App) (cluster : KafkaClusterConfig) :
    App × Option String :=
  if a.config.clusters.any (fun c => c.name == cluster.name) then
    (a, some ("cluster with name " ++ cluster.name ++ " already exists"))
  else
    let a' := { a with config :=
      { a.config with clusters := a.config.clusters ++ [cluster] } }
    match ad.saveConfig a'.config with
    | some e => (a', some ("failed to save configuration: " ++ e))
    | Option.none => (a', Option.none)

/-- Replace the first profile with the given name (the Go loop breaks after
the first hit). -/
def replaceFirstByName (l : List KafkaClusterConfig) (cluster : KafkaClusterConfig) :
    List KafkaClusterConfig :=
  match l with
  | [] => []
  | x :: xs =>
    if x.name == cluster.name then cluster :: xs
    else x :: replaceFirstByName xs cluster

/-- `App.UpdateCluster`. -/
def App.updateCluster (ad : Adapter) (a : App) (cluster : KafkaClusterConfig) :
    App × Option String :=
  if a.config.clusters.any (fun c => c.name == cluster.name) then
    let a' := { a with config :=
      { a.config with clusters := replaceFirstByName a.config.clusters cluster } }
    match ad.saveConfig a'.config with
    | some e => (a', some ("failed to save configuration: " ++ e))
    | Option.none => (a', Option.none)
  else
    (a, some ("cluster with name " ++ cluster.name ++ " not found"))

/-- `App.RemoveCluster`: drops every profile with the name (the Go loop has
no break) once at least one exists. -/
def App.removeCluster (ad : Adapter) (a : App) (clusterName : String) :
    App × Option String :=
  if a.config.clusters.any (fun c => c.name == clusterName) then
    let a' := { a with config :=
      { a.config with clusters :=
          a.config.clusters.filter (fun c => !(c.name == clusterName)) } }
    match ad.saveConfig a'.config with
    | some e => (a', some ("failed to save configuration: " ++ e))
    | Option.none => (a', Option.none)
  else
    (a, some ("cluster with name " ++ clusterName ++ " not found"))

def App.createTopic (ad : Adapter) (a : App) (topicName : String)
    (numPartitions replicationFactor : Int) : Except String Unit :=
  match a.kafkaClient with
  | Option.none => Except.error "not connected to any Kafka cluster"
  | some c => c.createTopic ad topicName numPartitions replicationFactor

def App.deleteTopic (ad : Adapter) (a : App) (topicName : String) :
    Except String Unit :=
  match a.kafkaClient with
  | Option.none => Except.error "not connected to any Kafka cluster"
  | some c => c.deleteTopic ad topicName

def App.updateTopicPartitions (a : App) (topicName : String)
    (numPartitions : Int) : Except String Unit :=
  match a.kafkaClient with
  | Option.none => Except.error "not connected to any Kafka cluster"
  | some c => c.updateTopicPartitions topicName numPartitions

/-! ## Command closures of the reducer

Each `func() tea.Msg` closure returned by `Model.Update` delivers exactly
one message.  The closures capture the model *by value*; assignments to
`m.state`, `m.topicForm`, `m.topicTable` inside a closure mutate that
discarded copy and are lost — only the returned message has any effect.
The functions below compute that message. -/

/-- `UpdateClusterListCmd(clusters)()`. -/
def updateClusterListMsg (clusters : List KafkaClusterConfig) : Msg :=
  Msg.itemsUpdated (clusters.map (fun c => NewClusterItem c.name c.bootstrap))

/-- `UpdateTopicListCmd(app)()`: list the topics, then fetch each topic's
info, falling back to a detail-less item when that fails. -/
def updateTopicListMsg (a : App) : Msg :=
  match a.listTopics with
  | Except.error e => Msg.errorMsg ("failed to list topics: " ++ e)
  | Except.ok topics =>
    Msg.itemsUpdated (topics.map (fun t =>
      match a.getTopicInfo t with
      | Except.error _ => NewTopicItem t Option.none
      | Except.ok topicInfo => NewTopicItem t (some topicInfo)))

/-- The `enter`-on-cluster closure: connect, and on success list the topics
(the `m.state = "topics"` assignment inside the closure is lost). -/
def connectClusterMsg (ad : Adapter) (a : App) (clusterName : String) : Msg :=
  match App.connectToCluster ad a clusterName with
  | (_, some e) => Msg.errorMsg e
  | (a', Option.none) => updateTopicListMsg a'

/-- The `enter`-on-topic closure: fetch the info; on success the closure
only mutates its discarded copy (`m.topicTable`, `m.state`) and returns
`nil`. -/
def topicDetailMsg (a : App) (topicName : String) : Msg :=
  match a.getTopicInfo topicName with
  | Except.error e => Msg.errorMsg e
  | Except.ok _ => Msg.nothing

/-- The `d`-on-cluster closure. -/
def removeClusterMsg (ad : Adapter) (a : App) (clusterName : String) : Msg :=
  match App.removeCluster ad a clusterName with
  | (_, some e) => Msg.errorMsg e
  | (a', Option.none) => updateClusterListMsg a'.config.clusters

/-- The `d`-on-topic closure. -/
def deleteTopicMsg (ad : Adapter) (a : App) (topicName : String) : Msg :=
  match App.deleteTopic ad a topicName with
  | Except.error e => Msg.errorMsg e
  | Except.ok _ => updateTopicListMsg a

/-- The `e`-on-topic closure: on success every mutation (`m.state`,
`m.topicForm`) is lost and the form's `Init` blink message is returned,
which the reducer ignores. -/
def editTopicMsg (a : App) (topicName : String) : Msg :=
  match a.getTopicInfo topicName with
  | Except.error e => Msg.errorMsg e
  | Except.ok _ => Msg.nothing

/-- The `TopicAddedMsg` handler's closure. -/
def createTopicMsg (ad : Adapter) (a : App) (name : String)
    (partitions replicationFactor : Int) : Msg :=
  match App.createTopic ad a name partitions replicationFactor with
  | Except.error e => Msg.errorMsg e
  | Except.ok _ => updateTopicListMsg a

/-- The `TopicUpdatedMsg` handler's closure. -/
def updateTopicMsg (a : App) (oldName : String) (partitions : Int) : Msg :=
  match App.updateTopicPartitions a oldName partitions with
  | Except.error e => Msg.errorMsg e
  | Except.ok _ => updateTopicListMsg a

/-! ## The view-state machine (`tui.Model`) -/

/-- Model of `bubbles/list.Model`: the items and the cursor.  Cursor
movement inside the list is not modelled (no claim depends on it), so
feeding a message to the list leaves it unchanged. -/
structure UIList where
  items : List Item
  cursor : Nat
deriving DecidableEq, Repr

def UIList.selectedItem (l : UIList) : Option Item := l.items.get? l.cursor

def UIList.setItems (l : UIList) (items : List Item) : UIList :=
  { l with items := items }

def UIList.updateMsg (l : UIList) (_ : Msg) : UIList := l

/-- Model of `tui.Model`.  `m.config` and `m.app.Config` alias the same
`AppConfig` in Go; here the single copy lives in `app`.  The topic table
and the message viewport are opaque to every claim and are omitted;
feeding them a message changes nothing the model exposes. -/
structure Model where
  app : App
  state : String
  clusterList : UIList
  topicList : UIList
  clusterForm : ClusterForm
  topicForm : TopicForm
  err : Option String
  selectedItem : String
  selectedCluster : String
  width : Int
  height : Int
deriving DecidableEq, Repr

/-- `NewModel`. -/
def NewModel (cfg : AppConfig) : Model :=
  { app := { config := cfg, kafkaClient := Option.none }
    state := "clusters"
    clusterList := { items := [], cursor := 0 }
    topicList := { items := [], cursor := 0 }
    clusterForm := NewClusterForm 80 24 Option.none
    topicForm := NewTopicForm 80 24 "" 0
    err := Option.none
    selectedItem := ""
    selectedCluster := ""
    width := 80
    height := 24 }

/-- The `tea.KeyMsg` switch of `Model.Update`.  `some` is an early
`return`; `none` falls through to the per-state component routing. -/
def Model.handleKey (ad : Adapter) (m : Model) (s : String) :
    Option (Model × Cmd) :=
  if s = "ctrl+c" ∨ s = "q" then
    if m.state ≠ "add_cluster" ∧ m.state ≠ "edit_cluster" ∧
       m.state ≠ "add_topic" ∧ m.state ≠ "edit_topic" then
      some (m, Cmd.quit)
    else Option.none
  else if s = "enter" then
    if m.state = "clusters" then
      match m.clusterList.selectedItem with
      | some i =>
        some ({ m with selectedItem := i.title, selectedCluster := i.title },
              Cmd.emit (connectClusterMsg ad m.app i.title))
      | Option.none => Option.none
    else if m.state = "topics" then
      match m.topicList.selectedItem with
      | some i =>
        some ({ m with selectedItem := i.title },
              Cmd.emit (topicDetailMsg m.app i.title))
      | Option.none => Option.none
    else Option.none
  else if s = "backspace" ∨ s = "esc" then
    if m.state = "topics" then some ({ m with state := "clusters" }, Cmd.noCmd)
    else if m.state = "topic_details" then some ({ m with state := "topics" }, Cmd.noCmd)
    else if m.state = "messages" then some ({ m with state := "topic_details" }, Cmd.noCmd)
    else Option.none
  else if s = "a" then
    if m.state = "clusters" then
      some ({ m with
                state := "add_cluster"
                clusterForm := NewClusterForm m.width m.height Option.none },
            Cmd.noCmd)
    else if m.state = "topics" then
      some ({ m with
                state := "add_topic"
                topicForm := NewTopicForm m.width m.height "" 0 },
            Cmd.noCmd)
    else Option.none
  else if s = "d" then
    if m.state = "clusters" then
      match m.clusterList.selectedItem with
      | some i => some (m, Cmd.emit (removeClusterMsg ad m.app i.title))
      | Option.none => Option.none
    else if m.state = "topics" then
      match m.topicList.selectedItem with
      | some i => some (m, Cmd.emit (deleteTopicMsg ad m.app i.title))
      | Option.none => Option.none
    else Option.none
  else if s = "e" then
    if m.state = "clusters" then
      match m.clusterList.selectedItem with
      | some i =>
        match m.app.config.clusters.find? (fun c => c.name == i.title) with
        | some clusterConfig =>
          some ({ m with
                    state := "edit_cluster"
                    clusterForm := NewClusterForm m.width m.height (some clusterConfig) },
                Cmd.noCmd)
        | Option.none => Option.none
      | Option.none => Option.none
    else if m.state = "topics" then
      match m.topicList.selectedItem with
      | some i => some (m, Cmd.emit (editTopicMsg m.app i.title))
      | Option.none => Option.none
    else Option.none
  else Option.none

/-- The message-type switch of `Model.Update`.  `some` is an early
`return`; `none` falls through to the component routing. -/
def Model.dispatch (ad : Adapter) (m : Model) (msg : Msg) :
    Option (Model × Cmd) :=
  match msg with
  | Msg.key s => Model.handleKey ad m s
  | Msg.itemsUpdated items =>
    if m.state = "topics" then
      some ({ m with topicList := m.topicList.setItems items }, Cmd.noCmd)
    else if m.state = "clusters" then
      some ({ m with clusterList := m.clusterList.setItems items }, Cmd.noCmd)
    else some (m, Cmd.noCmd)
  | Msg.errorMsg e => some ({ m with err := some e }, Cmd.noCmd)
  | Msg.clusterAdded c =>
    match App.addCluster ad m.app c with
    | (a', some e) => some ({ m with app := a', err := some e }, Cmd.noCmd)
    | (a', Option.none) =>
      some ({ m with app := a', state := "clusters" },
            Cmd.emit (updateClusterListMsg a'.config.clusters))
  | Msg.clusterUpdated c =>
    match App.updateCluster ad m.app c with
    | (a', some e) => some ({ m with app := a', err := some e }, Cmd.noCmd)
    | (a', Option.none) =>
      some ({ m with app := a', state := "clusters" },
            Cmd.emit (updateClusterListMsg a'.config.clusters))
  | Msg.clusterFormCancelled => some ({ m with state := "clusters" }, Cmd.noCmd)
  | Msg.topicAdded name partitions replicationFactor =>
    some (m, Cmd.emit (createTopicMsg ad m.app name partitions replicationFactor))
  | Msg.topicUpdated oldName _ partitions =>
    some (m, Cmd.emit (updateTopicMsg m.app oldName partitions))
  | Msg.topicFormCancelled => some ({ m with state := "topics" }, Cmd.noCmd)
  | _ => Option.none

/-- The per-state component routing at the bottom of `Model.Update`. -/
def Model.route (m : Model) (msg : Msg) : Model × Cmd :=
  if m.state = "topics" then
    ({ m with topicList := m.topicList.updateMsg msg }, Cmd.noCmd)
  else if m.state = "topic_details" then (m, Cmd.noCmd)
  else if m.state = "messages" then (m, Cmd.noCmd)
  else if m.state = "add_cluster" ∨ m.state = "edit_cluster" then
    let r := m.clusterForm.update msg
    ({ m with clusterForm := r.1 }, liftOpt r.2)
  else if m.state = "add_topic" ∨ m.state = "edit_topic" then
    let r := m.topicForm.update msg
    ({ m with topicForm := r.1 }, liftOpt r.2)
  else
    ({ m with clusterList := m.clusterList.updateMsg msg }, Cmd.noCmd)

/-- `Model.Update`. -/
def Model.update (ad : Adapter) (m : Model) (msg : Msg) : Model × Cmd :=
  match Model.dispatch ad m msg with
  | some r => r
  | Option.none => Model.route m msg

/-! ## Claims -/

/-- C7: for every connected client and every existing topic,
`UpdateTopicPartitions(name, partitions)` returns an error whenever
`partitions` is at most the topic's current partition count — the
partition count may only increase. -/
theorem updateTopicPartitions_nonincrease_fails
    (c : Client) (topicName : String) (numPartitions : Int)
    (meta : List String) (info : TopicInfo)
    (hconn : c.conn = some meta)
    (hinfo : c.getTopicInfo topicName = Except.ok info)
    (hle : numPartitions ≤ info.partitions) :
    c.updateTopicPartitions topicName numPartitions =
      Except.error ("new partition count must be greater than current count ("
        ++ toString info.partitions ++ ")") := by
  simp only [Client.updateTopicPartitions, hconn, hinfo, if_pos hle]

/-- Witness for C7: a client whose connection sees two partition records
for `orders`; asking for 2 partitions is rejected. -/
theorem updateTopicPartitions_nonincrease_fails_witness :
    ({ config := { name := "p", bootstrap := ["h:9092"], username := "",
                   password := "", ssl := false, sasl := false, saslType := "" },
       conn := some ["orders", "orders", "payments"] } : Client).updateTopicPartitions
        "orders" 2 =
      Except.error "new partition count must be greater than current count (2)" :=
  updateTopicPartitions_nonincrease_fails _ "orders" 2
    ["orders", "orders", "payments"]
    { name := "orders", partitions := 2, replicationFactor := 0 }
    rfl rfl (by decide)

/-- C9: `UpdateTopicPartitions` returns an error for every input; in
particular, even with a connection, an existing topic and a strict
increase, it returns the AdminClient-required error. -/
theorem updateTopicPartitions_never_succeeds :
    (∀ (c : Client) (topicName : String) (numPartitions : Int),
        ∃ e, c.updateTopicPartitions topicName numPartitions = Except.error e) ∧
    (∀ (c : Client) (topicName : String) (numPartitions : Int) (info : TopicInfo),
        c.getTopicInfo topicName = Except.ok info →
        info.partitions < numPartitions →
        c.updateTopicPartitions topicName numPartitions =
          Except.error ("updating partitions is supported but requires Kafka AdminClient API. "
            ++ "Please use kafka-topics.sh --alter --topic " ++ topicName
            ++ " --partitions " ++ toString numPartitions)) := by
  constructor
  · intro c topicName numPartitions
    unfold Client.updateTopicPartitions
    rcases hc : c.conn with _ | meta
    · exact ⟨_, rfl⟩
    · rcases hi : c.getTopicInfo topicName with e | info
      · exact ⟨_, rfl⟩
      · by_cases hle : numPartitions ≤ info.partitions
        · refine ⟨"new partition count must be greater than current count ("
            ++ toString info.partitions ++ ")", ?_⟩
          simp only [if_pos hle]
        · refine ⟨"updating partitions is supported but requires Kafka AdminClient API. "
            ++ "Please use kafka-topics.sh --alter --topic " ++ topicName
            ++ " --partitions " ++ toString numPartitions, ?_⟩
          simp only [if_neg hle]
  · intro c topicName numPartitions info hinfo hlt
    rcases hc : c.conn with _ | meta
    · simp [Client.getTopicInfo, hc] at hinfo
    · simp only [Client.updateTopicPartitions, hc, hinfo,
        if_neg (not_le.mpr hlt)]

/-- Witness for C9: with the concrete connected client, rising from 2 to 5
partitions still fails with the AdminClient error. -/
theorem updateTopicPartitions_never_succeeds_witness :
    ({ config := { name := "p", bootstrap := ["h:9092"], username := "",
                   password := "", ssl := false, sasl := false, saslType := "" },
       conn := some ["orders", "orders", "payments"] } : Client).updateTopicPartitions
        "orders" 5 =
      Except.error ("updating partitions is supported but requires Kafka AdminClient API. "
        ++ "Please use kafka-topics.sh --alter --topic orders --partitions 5") :=
  updateTopicPartitions_never_succeeds.2 _ "orders" 5
    { name := "orders", partitions := 2, replicationFactor := 0 }
    rfl (by decide)

/-- C8: item projection is pure; a cluster item's subtitle is its first
endpoint, with " (+N more)" appended exactly when N ≥ 1 further endpoints
follow; a topic item's subtitle is "Unknown details" without detail and
the partition count with it. -/
theorem item_projection_subtitles :
    (∀ (topicName : String) (info : TopicInfo),
        (NewTopicItem topicName (some info)).description =
          toString info.partitions ++ " partitions") ∧
    (∀ (topicName : String),
        (NewTopicItem topicName Option.none).description = "Unknown details") ∧
    (∀ (clusterName fst : String),
        (NewClusterItem clusterName [fst]).description = fst) ∧
    (∀ (clusterName fst snd : String) (rest : List String),
        (NewClusterItem clusterName (fst :: snd :: rest)).description =
          fst ++ " (+" ++ toString (rest.length + 1) ++ " more)") := by
  refine ⟨fun _ _ => rfl, fun _ => rfl, fun _ _ => rfl, fun n f s rest => ?_⟩
  simp [NewClusterItem]

/-- C10: submitting the topic form with an empty partitions field raises no
error; the partition count silently defaults to 1, producing a
`TopicAddedMsg` (add mode) or `TopicUpdatedMsg` (edit mode) with
partitions = 1. -/
theorem topicForm_empty_partitions_defaults (f : TopicForm)
    (hfi : f.focusIndex = -1) (hb : f.buttonFocus = 0)
    (hv : f.input1.value = "") :
    (f.update (Msg.key "enter")).2 =
      some (if f.topicName = "" then Msg.topicAdded f.input0.value 1 1
            else Msg.topicUpdated f.topicName f.input0.value 1) := by
  by_cases h : f.topicName = "" <;>
    simp [TopicForm.update, TopicForm.applyKey, TopicForm.submitMsg,
      hfi, hb, hv, h]

/-- Witness for C10: an add-mode form named "metrics" with the partitions
field cleared submits `TopicAddedMsg{metrics, 1, 1}`. -/
theorem topicForm_empty_partitions_defaults_witness :
    (({ NewTopicForm 80 24 "" 0 with
          input0 := { value := "metrics", focused := false }
          input1 := { value := "", focused := false }
          focusIndex := -1
          buttonFocus := 0 } : TopicForm).update (Msg.key "enter")).2 =
      some (if ("" : String) = "" then Msg.topicAdded "metrics" 1 1
            else Msg.topicUpdated "" "metrics" 1) :=
  topicForm_empty_partitions_defaults _ rfl rfl rfl

/-- C6: when the persistence collaborator succeeds, adding a profile whose
name is new appends it — the resulting list keeps every previous profile
and contains exactly one profile equal to `p` — while adding a profile
whose name is taken fails and leaves the list untouched. -/
theorem addCluster_roundtrip (ad : Adapter) (a : App) (p : KafkaClusterConfig)
    (hsave : ∀ cfg, ad.saveConfig cfg = Option.none) :
    ((∀ c ∈ a.config.clusters, c.name ≠ p.name) →
        (App.addCluster ad a p).2 = Option.none ∧
        (App.addCluster ad a p).1.config.clusters = a.config.clusters ++ [p] ∧
        (App.addCluster ad a p).1.config.clusters.count p = 1) ∧
    ((∃ c ∈ a.config.clusters, c.name = p.name) →
        (App.addCluster ad a p).2.isSome = true ∧
        (App.addCluster ad a p).1 = a) := by
  constructor
  · intro hfresh
    have hany : a.config.clusters.any (fun c => c.name == p.name) = false := by
      simp only [List.any_eq_false, beq_iff_eq]
      exact hfresh
    have hnotmem : p ∉ a.config.clusters := fun hmem => hfresh p hmem rfl
    have hres : App.addCluster ad a p =
        ({ a with config := { a.config with clusters := a.config.clusters ++ [p] } },
         Option.none) := by
      simp [App.addCluster, hany, hsave]
    rw [hres]
    refine ⟨rfl, rfl, ?_⟩
    rw [List.count_append, List.count_eq_zero.mpr hnotmem]
    simp
  · intro ⟨c, hc, hname⟩
    have hany : a.config.clusters.any (fun cc => cc.name == p.name) = true := by
      simp only [List.any_eq_true, beq_iff_eq]
      exact ⟨c, hc, hname⟩
    simp [App.addCluster, hany]

/-- Witness for C6: a one-profile configuration; adding a new name appends
it, re-adding the existing name fails. -/
theorem addCluster_roundtrip_witness :
    let local0 : KafkaClusterConfig :=
      { name := "local", bootstrap := ["localhost:9092"], username := "",
        password := "", ssl := false, sasl := false, saslType := "" }
    let staging : KafkaClusterConfig :=
      { name := "staging", bootstrap := ["s:9092"], username := "",
        password := "", ssl := false, sasl := false, saslType := "" }
    let ad : Adapter :=
      { dial := fun _ => Except.error "no network"
        createTopicOutcome := fun _ _ _ => some "refused"
        deleteTopicOutcome := fun _ => some "refused"
        saveConfig := fun _ => Option.none }
    let a : App :=
      { config := { clusters := [local0],
                    ui := { theme := "default", refreshInterval := 5,
                            maxMessagesShown := 100 } },
        kafkaClient := Option.none }
    (App.addCluster ad a staging).2 = Option.none ∧
      (App.addCluster ad a staging).1.config.clusters = [local0] ++ [staging] ∧
      (App.addCluster ad a staging).1.config.clusters.count staging = 1 := by
  intro local0 staging ad a
  exact (addCluster_roundtrip ad a staging (fun _ => rfl)).1
    (by intro c hc; simp at hc; subst hc; decide)

/-- Helper: a lifted form command is never the quit command. -/
theorem liftOpt_ne_quit (o : Option Msg) : liftOpt o ≠ Cmd.quit := by
  cases o <;> simp [liftOpt]

/-- Fixtures for concrete instances: an adapter with no reachable network
and always-succeeding configuration saves, and an initial model. -/
def probeAdapter : Adapter :=
  { dial := fun _ => Except.error "connection refused"
    createTopicOutcome := fun _ _ _ => some "connection refused"
    deleteTopicOutcome := fun _ => some "connection refused"
    saveConfig := fun _ => Option.none }

def defaultUI : UIConfig :=
  { theme := "default", refreshInterval := 5, maxMessagesShown := 100 }

def baseModel : Model := NewModel { clusters := [], ui := defaultUI }

/-- C5: for a cluster name absent from the configured profiles,
`ConnectToCluster` fails and installs no client, and the `enter` handler in
the cluster list delivers an `ErrorMsg`; consuming that error leaves the
view state at `clusters`, never reaching the topic list. -/
theorem connect_unknown_cluster_fails (ad : Adapter) (m : Model) (i : Item)
    (hstate : m.state = "clusters")
    (hsel : m.clusterList.selectedItem = some i)
    (habs : ∀ c ∈ m.app.config.clusters, c.name ≠ i.title) :
    ((App.connectToCluster ad m.app i.title).2.isSome = true ∧
     (App.connectToCluster ad m.app i.title).1 = m.app) ∧
    Model.update ad m (Msg.key "enter") =
      ({ m with selectedItem := i.title, selectedCluster := i.title },
       Cmd.emit (Msg.errorMsg ("cluster " ++ i.title ++ " not found in configuration"))) ∧
    (Model.update ad ((Model.update ad m (Msg.key "enter")).1)
        (Msg.errorMsg ("cluster " ++ i.title ++ " not found in configuration"))).1.state
      = "clusters" := by
  have hfind : m.app.config.clusters.find? (fun c => c.name == i.title) = Option.none := by
    rw [List.find?_eq_none]
    intro c hc
    simp only [beq_iff_eq]
    exact habs c hc
  have hupd : Model.update ad m (Msg.key "enter") =
      ({ m with selectedItem := i.title, selectedCluster := i.title },
       Cmd.emit (Msg.errorMsg ("cluster " ++ i.title ++ " not found in configuration"))) := by
    simp [Model.update, Model.dispatch, Model.handleKey, hstate, hsel,
      connectClusterMsg, App.connectToCluster, hfind]
  refine ⟨⟨?_, ?_⟩, hupd, ?_⟩
  · simp [App.connectToCluster, hfind]
  · simp [App.connectToCluster, hfind]
  · rw [hupd]
    simp [Model.update, Model.dispatch, hstate]

/-- Witness for C5: a model with an empty profile list and a selected item
"ghost"; pressing enter emits the not-found error and the state stays at
`clusters` after the error is consumed. -/
theorem connect_unknown_cluster_fails_witness :
    let mC : Model :=
      { baseModel with
          clusterList :=
            { items := [{ title := "ghost", description := "", data := Option.none }],
              cursor := 0 } }
    Model.update probeAdapter mC (Msg.key "enter") =
      ({ mC with selectedItem := "ghost", selectedCluster := "ghost" },
       Cmd.emit (Msg.errorMsg "cluster ghost not found in configuration")) := by
  intro mC
  exact (connect_unknown_cluster_fails probeAdapter mC
    { title := "ghost", description := "", data := Option.none }
    rfl rfl (by simp [baseModel, NewModel])).2.1

/-- C4: `q`/`ctrl+c` never quits while a form view is active — the key goes
to the active form instead — and in every other view state the same key
press yields the quit command with the model unchanged. -/
theorem quit_key_handling (ad : Adapter) (m : Model) (s : String)
    (hs : s = "ctrl+c" ∨ s = "q") :
    ((m.state = "add_cluster" ∨ m.state = "edit_cluster") →
        Model.update ad m (Msg.key s) =
          ({ m with clusterForm := (m.clusterForm.update (Msg.key s)).1 },
           liftOpt (m.clusterForm.update (Msg.key s)).2) ∧
        (Model.update ad m (Msg.key s)).2 ≠ Cmd.quit) ∧
    ((m.state = "add_topic" ∨ m.state = "edit_topic") →
        Model.update ad m (Msg.key s) =
          ({ m with topicForm := (m.topicForm.update (Msg.key s)).1 },
           liftOpt (m.topicForm.update (Msg.key s)).2) ∧
        (Model.update ad m (Msg.key s)).2 ≠ Cmd.quit) ∧
    (m.state ≠ "add_cluster" → m.state ≠ "edit_cluster" →
     m.state ≠ "add_topic" → m.state ≠ "edit_topic" →
        Model.update ad m (Msg.key s) = (m, Cmd.quit)) := by
  refine ⟨?_, ?_, ?_⟩
  · rintro (hc | hc) <;>
      rcases hs with rfl | rfl <;>
      · constructor
        · simp [Model.update, Model.dispatch, Model.handleKey, Model.route, hc]
        · simp only [Model.update, Model.dispatch, Model.handleKey, Model.route, hc]
          simp
          exact liftOpt_ne_quit _
  · rintro (hc | hc) <;>
      rcases hs with rfl | rfl <;>
      · constructor
        · simp [Model.update, Model.dispatch, Model.handleKey, Model.route, hc]
        · simp only [Model.update, Model.dispatch, Model.handleKey, Model.route, hc]
          simp
          exact liftOpt_ne_quit _
  · intro h1 h2 h3 h4
    rcases hs with rfl | rfl <;>
      simp [Model.update, Model.dispatch, Model.handleKey, h1, h2, h3, h4]

/-- Witness for C4: in the topic list `q` quits; in the add-topic view `q`
does not quit. -/
theorem quit_key_handling_witness :
    Model.update probeAdapter { baseModel with state := "topics" } (Msg.key "q") =
      ({ baseModel with state := "topics" }, Cmd.quit) ∧
    (Model.update probeAdapter { baseModel with state := "add_topic" }
        (Msg.key "q")).2 ≠ Cmd.quit := by
  constructor
  · exact (quit_key_handling probeAdapter { baseModel with state := "topics" } "q"
      (Or.inr rfl)).2.2 (by decide) (by decide) (by decide) (by decide)
  · exact ((quit_key_handling probeAdapter { baseModel with state := "add_topic" } "q"
      (Or.inr rfl)).2.1 (Or.inl rfl)).2

/-- C3: submitting the topic form (enter, button row on submit) with
partitions "abc" or "0" yields the `InvalidInput` error
"invalid number of partitions"; the view state stays at
`add_topic`/`edit_topic` and, on consuming the error, the reducer only
records it — no transition, no command. -/
theorem topicForm_invalid_partitions_rejected (ad : Adapter) (m : Model)
    (hstate : m.state = "add_topic" ∨ m.state = "edit_topic")
    (hfi : m.topicForm.focusIndex = -1)
    (hb : m.topicForm.buttonFocus = 0)
    (hv : m.topicForm.input1.value = "abc" ∨ m.topicForm.input1.value = "0") :
    (Model.update ad m (Msg.key "enter")).2 =
      Cmd.emit (Msg.errorMsg "invalid number of partitions") ∧
    (Model.update ad m (Msg.key "enter")).1.state = m.state ∧
    (Model.update ad ((Model.update ad m (Msg.key "enter")).1)
        (Msg.errorMsg "invalid number of partitions")).1.state = m.state ∧
    (Model.update ad ((Model.update ad m (Msg.key "enter")).1)
        (Msg.errorMsg "invalid number of partitions")).1.err =
      some "invalid number of partitions" ∧
    (Model.update ad ((Model.update ad m (Msg.key "enter")).1)
        (Msg.errorMsg "invalid number of partitions")).2 = Cmd.noCmd := by
  have habc : goScanInt "abc" = Option.none := by decide
  have h0 : goScanInt "0" = some 0 := by decide
  have hform : (m.topicForm.update (Msg.key "enter")).2 =
      some (Msg.errorMsg "invalid number of partitions") := by
    rcases hv with hv | hv <;>
      simp [TopicForm.update, TopicForm.applyKey, TopicForm.submitMsg,
        hfi, hb, hv, habc, h0]
  have hupd : Model.update ad m (Msg.key "enter") =
      ({ m with topicForm := (m.topicForm.update (Msg.key "enter")).1 },
       Cmd.emit (Msg.errorMsg "invalid number of partitions")) := by
    rcases hstate with h | h <;>
      · simp only [Model.update, Model.dispatch, Model.handleKey, Model.route, h]
        simp [hform, liftOpt]
  rw [hupd]
  refine ⟨rfl, rfl, ?_, ?_, ?_⟩ <;>
    simp [Model.update, Model.dispatch]

/-- Witness for C3: an add-topic model whose partitions field reads "abc";
enter emits the invalid-input error and the state stays `add_topic`. -/
theorem topicForm_invalid_partitions_rejected_witness :
    let mT : Model :=
      { baseModel with
          state := "add_topic"
          topicForm :=
            { NewTopicForm 80 24 "" 0 with
                focusIndex := -1
                buttonFocus := 0
                input1 := { value := "abc", focused := false } } }
    (Model.update probeAdapter mT (Msg.key "enter")).2 =
      Cmd.emit (Msg.errorMsg "invalid number of partitions") ∧
    (Model.update probeAdapter mT (Msg.key "enter")).1.state = "add_topic" := by
  intro mT
  have h := topicForm_invalid_partitions_rejected probeAdapter mT
    (Or.inl rfl) rfl rfl (Or.inl rfl)
  exact ⟨h.1, h.2.1⟩

/-- A concrete profile for counterexamples. -/
def prodCluster : KafkaClusterConfig :=
  { name := "prod", bootstrap := ["localhost:9092"], username := "",
    password := "", ssl := false, sasl := false, saslType := "" }

/-- C1 counterexample: a `ClusterForm` built from an existing profile is in
edit mode with the identity (name) field focused, and a single character
key event changes the identity field's value from "prod" to "prodx" — the
identity field is neither excluded from input nor from the focus cycle. -/
theorem clusterForm_edit_identity_mutates :
    (NewClusterForm 80 24 (some prodCluster)).isEdit = true ∧
    (NewClusterForm 80 24 (some prodCluster)).input0.value = "prod" ∧
    (NewClusterForm 80 24 (some prodCluster)).focusIndex = 0 ∧
    ((NewClusterForm 80 24 (some prodCluster)).update (Msg.key "x")).1.input0.value
      = "prodx" := by
  decide

/-- Helper: `TopicForm.Update` never changes `topicName`. -/
theorem topicForm_update_topicName (f : TopicForm) (msg : Msg) :
    ((f.update msg).1).topicName = f.topicName := by
  cases msg <;>
    simp only [TopicForm.update, TopicForm.applyKey, TopicForm.navigate,
      TopicForm.charInput] <;>
    split_ifs <;> rfl

/-- Helper: in edit mode (non-empty `topicName`) `TopicForm.Update` never
changes the identity field's value. -/
theorem topicForm_update_input0_value (f : TopicForm) (msg : Msg)
    (h : f.topicName ≠ "") :
    ((f.update msg).1).input0.value = f.input0.value := by
  have hb : (f.topicName != "") = true := bne_iff_ne.mpr h
  cases msg <;>
    simp only [TopicForm.update, TopicForm.applyKey, TopicForm.navigate,
      TopicForm.charInput, hb] <;>
    split_ifs <;> simp_all

/-- Helper: the identity-field invariant carried through any message
sequence. -/
theorem topicForm_foldl_identity (msgs : List Msg) (f : TopicForm)
    (name : String) (hname : name ≠ "")
    (h0 : f.topicName = name) (hv : f.input0.value = name) :
    (msgs.foldl (fun g msg => (TopicForm.update g msg).1) f).input0.value = name ∧
    (msgs.foldl (fun g msg => (TopicForm.update g msg).1) f).topicName = name := by
  induction msgs generalizing f with
  | nil => exact ⟨hv, h0⟩
  | cons msg rest ih =>
    simp only [List.foldl_cons]
    apply ih
    · rw [topicForm_update_topicName]
      exact h0
    · rw [topicForm_update_input0_value _ _ (by rw [h0]; exact hname)]
      exact hv

/-- C1 (amended): a `TopicForm` built with a non-empty topic name keeps the
identity field's value (and `topicName`) unchanged under every message
sequence, and a forward wrap from the `cancel` button skips the locked
field, landing on field 1.  A `ClusterForm` built from an existing profile
has no such lock (see the counterexample), and the topic form's locked
field is still reachable going backwards. -/
theorem topicForm_edit_identity_invariant (w h : Int) (name : String)
    (partitions : Int) (msgs : List Msg) (hname : name ≠ "") :
    ((msgs.foldl (fun f msg => (TopicForm.update f msg).1)
        (NewTopicForm w h name partitions)).input0.value = name ∧
     (msgs.foldl (fun f msg => (TopicForm.update f msg).1)
        (NewTopicForm w h name partitions)).topicName = name) ∧
    (∀ f : TopicForm, f.topicName ≠ "" → f.focusIndex = -1 → f.buttonFocus = 1 →
        ((f.update (Msg.key "tab")).1).focusIndex = 1) := by
  constructor
  · apply topicForm_foldl_identity msgs _ name hname
    · rfl
    · rfl
  · intro f hf hfi hb1
    have hb : (f.topicName != "") = true := bne_iff_ne.mpr hf
    simp [TopicForm.update, TopicForm.applyKey, TopicForm.navigate,
      topicNavDown, hfi, hb1, hb]

/-- Witness for C1 (amended): editing topic "orders" with 3 partitions;
typing, tabbing and deleting leave the identity field at "orders", and a
forward wrap from cancel lands on field 1. -/
theorem topicForm_edit_identity_invariant_witness :
    ([Msg.key "x", Msg.key "tab", Msg.key "backspace", Msg.key "shift+tab",
        Msg.key "y"].foldl
      (fun f msg => (TopicForm.update f msg).1)
      (NewTopicForm 80 24 "orders" 3)).input0.value = "orders" ∧
    (({ NewTopicForm 80 24 "orders" 3 with
          focusIndex := -1
          buttonFocus := 1 } : TopicForm).update (Msg.key "tab")).1.focusIndex = 1 := by
  constructor
  · exact ((topicForm_edit_identity_invariant 80 24 "orders" 3
      [Msg.key "x", Msg.key "tab", Msg.key "backspace", Msg.key "shift+tab",
        Msg.key "y"] (by decide)).1).1
  · exact (topicForm_edit_identity_invariant 80 24 "orders" 3 [] (by decide)).2
      { NewTopicForm 80 24 "orders" 3 with focusIndex := -1, buttonFocus := 1 }
      (by decide) rfl rfl

/-! ## Focus-cycle analysis for C2 -/

/-- Focus states reachable in a form with fields `0..maxIdx`: the button
row with `buttonFocus ∈ {submit, cancel}`, or a field index in range. -/
def validFocus (maxIdx : Int) (p : Int × Int) : Prop :=
  (p.1 = -1 ∧ (p.2 = 0 ∨ p.2 = 1)) ∨ (0 ≤ p.1 ∧ p.1 ≤ maxIdx)

theorem clusterForm_tab_focusIndex (f : ClusterForm) :
    ((f.update (Msg.key "tab")).1).focusIndex
      = (clusterNavDown (f.focusIndex, f.buttonFocus)).1 := by
  simp [ClusterForm.update, ClusterForm.applyKey, ClusterForm.navigate]

theorem clusterForm_tab_buttonFocus (f : ClusterForm) :
    ((f.update (Msg.key "tab")).1).buttonFocus
      = (clusterNavDown (f.focusIndex, f.buttonFocus)).2 := by
  simp [ClusterForm.update, ClusterForm.applyKey, ClusterForm.navigate]

theorem clusterForm_shiftTab_focusIndex (f : ClusterForm) :
    ((f.update (Msg.key "shift+tab")).1).focusIndex
      = (clusterNavUp (f.focusIndex, f.buttonFocus)).1 := by
  simp [ClusterForm.update, ClusterForm.applyKey, ClusterForm.navigate]

theorem clusterForm_shiftTab_buttonFocus (f : ClusterForm) :
    ((f.update (Msg.key "shift+tab")).1).buttonFocus
      = (clusterNavUp (f.focusIndex, f.buttonFocus)).2 := by
  simp [ClusterForm.update, ClusterForm.applyKey, ClusterForm.navigate]

theorem topicForm_tab_focusIndex (f : TopicForm) :
    ((f.update (Msg.key "tab")).1).focusIndex
      = (topicNavDown (f.topicName != "") (f.focusIndex, f.buttonFocus)).1 := by
  simp [TopicForm.update, TopicForm.applyKey, TopicForm.navigate]

theorem topicForm_tab_buttonFocus (f : TopicForm) :
    ((f.update (Msg.key "tab")).1).buttonFocus
      = (topicNavDown (f.topicName != "") (f.focusIndex, f.buttonFocus)).2 := by
  simp [TopicForm.update, TopicForm.applyKey, TopicForm.navigate]

theorem topicForm_shiftTab_focusIndex (f : TopicForm) :
    ((f.update (Msg.key "shift+tab")).1).focusIndex
      = (topicNavUp (f.focusIndex, f.buttonFocus)).1 := by
  simp [TopicForm.update, TopicForm.applyKey, TopicForm.navigate]

theorem topicForm_shiftTab_buttonFocus (f : TopicForm) :
    ((f.update (Msg.key "shift+tab")).1).buttonFocus
      = (topicNavUp (f.focusIndex, f.buttonFocus)).2 := by
  simp [TopicForm.update, TopicForm.applyKey, TopicForm.navigate]

theorem clusterCycleDown6 (fi b : Int) (h : validFocus 3 (fi, b)) :
    (clusterNavDown (clusterNavDown (clusterNavDown (clusterNavDown
      (clusterNavDown (clusterNavDown (fi, b))))))).1 = fi := by
  rcases h with ⟨rfl, rfl | rfl⟩ | ⟨h0, h3⟩
  · decide
  · decide
  · have h4 : fi = 0 ∨ fi = 1 ∨ fi = 2 ∨ fi = 3 := by omega
    rcases h4 with rfl | rfl | rfl | rfl <;> norm_num [clusterNavDown]

theorem clusterCycleUp5 (fi b : Int) (h : validFocus 3 (fi, b)) :
    (clusterNavUp (clusterNavUp (clusterNavUp (clusterNavUp
      (clusterNavUp (fi, b)))))).1 = fi := by
  rcases h with ⟨rfl, rfl | rfl⟩ | ⟨h0, h3⟩
  · decide
  · decide
  · have h4 : fi = 0 ∨ fi = 1 ∨ fi = 2 ∨ fi = 3 := by omega
    rcases h4 with rfl | rfl | rfl | rfl <;> norm_num [clusterNavUp]

theorem topicCycleDownAdd4 (fi b : Int) (h : validFocus 1 (fi, b)) :
    (topicNavDown false (topicNavDown false (topicNavDown false
      (topicNavDown false (fi, b))))).1 = fi := by
  rcases h with ⟨rfl, rfl | rfl⟩ | ⟨h0, h1⟩
  · decide
  · decide
  · have h2 : fi = 0 ∨ fi = 1 := by omega
    rcases h2 with rfl | rfl <;> norm_num [topicNavDown]

theorem topicCycleDownEdit3 (fi b : Int) (h : validFocus 1 (fi, b))
    (hne : fi ≠ 0) :
    (topicNavDown true (topicNavDown true (topicNavDown true (fi, b)))).1 = fi := by
  rcases h with ⟨rfl, rfl | rfl⟩ | ⟨h0, h1⟩
  · decide
  · decide
  · have h2 : fi = 1 := by omega
    subst h2
    norm_num [topicNavDown]

theorem topicCycleUp3 (fi b : Int) (h : validFocus 1 (fi, b)) :
    (topicNavUp (topicNavUp (topicNavUp (fi, b)))).1 = fi := by
  rcases h with ⟨rfl, rfl | rfl⟩ | ⟨h0, h1⟩
  · decide
  · decide
  · have h2 : fi = 0 ∨ fi = 1 := by omega
    rcases h2 with rfl | rfl <;> norm_num [topicNavUp]

/-- C2 counterexample: on a freshly constructed (add-mode) cluster form the
focus starts at `(focusIndex, buttonFocus) = (0, 0)`, yet `fieldCount + 2
= 6` consecutive shift+tab presses leave `focusIndex = -1`: the focus state
does not return to its starting position, because the backward cycle visits
the button row only once and so has length `fieldCount + 1 = 5`. -/
theorem focus_cycle_counterexample :
    (NewClusterForm 80 24 Option.none).focusIndex = 0 ∧
    (NewClusterForm 80 24 Option.none).buttonFocus = 0 ∧
    ((List.replicate 6 (Msg.key "shift+tab")).foldl
        (fun g k => (ClusterForm.update g k).1)
        (NewClusterForm 80 24 Option.none)).focusIndex = -1 := by
  decide

/-- C2 (amended): from any valid focus state, `fieldCount + 2` consecutive
tab presses return `focusIndex` to its start for the cluster form (6
presses, in add and edit mode alike — the cluster form never skips its
identity field) and for the add-mode topic form (4 presses).  The backward
cycle is shorter: `fieldCount + 1` shift+tab presses (5 for the cluster
form, 3 for the topic form) close it, because going up the button row is a
single stop.  In topic edit mode the forward cycle skips the locked field
and closes after `fieldCount + 1 = 3` tab presses (from any reachable state
off the locked field), while shift+tab still visits the locked field and
closes after 3 presses.  `buttonFocus` is not in general restored. -/
theorem focus_cycle_lengths :
    (∀ f : ClusterForm, validFocus 3 (f.focusIndex, f.buttonFocus) →
        ((List.replicate 6 (Msg.key "tab")).foldl
            (fun g k => (ClusterForm.update g k).1) f).focusIndex = f.focusIndex ∧
        ((List.replicate 5 (Msg.key "shift+tab")).foldl
            (fun g k => (ClusterForm.update g k).1) f).focusIndex = f.focusIndex) ∧
    (∀ f : TopicForm, validFocus 1 (f.focusIndex, f.buttonFocus) →
        (f.topicName = "" →
          ((List.replicate 4 (Msg.key "tab")).foldl
              (fun g k => (TopicForm.update g k).1) f).focusIndex = f.focusIndex) ∧
        (f.topicName ≠ "" → f.focusIndex ≠ 0 →
          ((List.replicate 3 (Msg.key "tab")).foldl
              (fun g k => (TopicForm.update g k).1) f).focusIndex = f.focusIndex) ∧
        ((List.replicate 3 (Msg.key "shift+tab")).foldl
            (fun g k => (TopicForm.update g k).1) f).focusIndex = f.focusIndex) := by
  constructor
  · intro f hvalid
    constructor
    · have hrep : List.replicate 6 (Msg.key "tab") =
          [Msg.key "tab", Msg.key "tab", Msg.key "tab", Msg.key "tab",
           Msg.key "tab", Msg.key "tab"] := rfl
      rw [hrep]
      simp only [List.foldl_cons, List.foldl_nil, clusterForm_tab_focusIndex,
        clusterForm_tab_buttonFocus, Prod.mk.eta]
      exact clusterCycleDown6 f.focusIndex f.buttonFocus hvalid
    · have hrep : List.replicate 5 (Msg.key "shift+tab") =
          [Msg.key "shift+tab", Msg.key "shift+tab", Msg.key "shift+tab",
           Msg.key "shift+tab", Msg.key "shift+tab"] := rfl
      rw [hrep]
      simp only [List.foldl_cons, List.foldl_nil, clusterForm_shiftTab_focusIndex,
        clusterForm_shiftTab_buttonFocus, Prod.mk.eta]
      exact clusterCycleUp5 f.focusIndex f.buttonFocus hvalid
  · intro f hvalid
    refine ⟨?_, ?_, ?_⟩
    · intro hadd
      have hflag : (f.topicName != "") = false := by simp [hadd]
      have hrep : List.replicate 4 (Msg.key "tab") =
          [Msg.key "tab", Msg.key "tab", Msg.key "tab", Msg.key "tab"] := rfl
      rw [hrep]
      simp only [List.foldl_cons, List.foldl_nil, topicForm_tab_focusIndex,
        topicForm_tab_buttonFocus, topicForm_update_topicName, hflag, Prod.mk.eta]
      exact topicCycleDownAdd4 f.focusIndex f.buttonFocus hvalid
    · intro hedit hne
      have hflag : (f.topicName != "") = true := bne_iff_ne.mpr hedit
      have hrep : List.replicate 3 (Msg.key "tab") =
          [Msg.key "tab", Msg.key "tab", Msg.key "tab"] := rfl
      rw [hrep]
      simp only [List.foldl_cons, List.foldl_nil, topicForm_tab_focusIndex,
        topicForm_tab_buttonFocus, topicForm_update_topicName, hflag, Prod.mk.eta]
      exact topicCycleDownEdit3 f.focusIndex f.buttonFocus hvalid hne
    · have hrep : List.replicate 3 (Msg.key "shift+tab") =
          [Msg.key "shift+tab", Msg.key "shift+tab", Msg.key "shift+tab"] := rfl
      rw [hrep]
      simp only [List.foldl_cons, List.foldl_nil, topicForm_shiftTab_focusIndex,
        topicForm_shiftTab_buttonFocus, Prod.mk.eta]
      exact topicCycleUp3 f.focusIndex f.buttonFocus hvalid

/-- Witness for C2 (amended): the fresh cluster form closes its forward
cycle after 6 tabs, and the edit-mode topic form after 3 tabs. -/
theorem focus_cycle_lengths_witness :
    ((List.replicate 6 (Msg.key "tab")).foldl
        (fun g k => (ClusterForm.update g k).1)
        (NewClusterForm 80 24 Option.none)).focusIndex
      = (NewClusterForm 80 24 Option.none).focusIndex ∧
    ((List.replicate 3 (Msg.key "tab")).foldl
        (fun g k => (TopicForm.update g k).1)
        (NewTopicForm 80 24 "orders" 3)).focusIndex
      = (NewTopicForm 80 24 "orders" 3).focusIndex := by
  constructor
  · exact (focus_cycle_lengths.1 (NewClusterForm 80 24 Option.none)
      (Or.inr ⟨by decide, by decide⟩)).1
  · exact (focus_cycle_lengths.2 (NewTopicForm 80 24 "orders" 3)
      (Or.inr ⟨by decide, by decide⟩)).2.1 (by decide) (by decide)
